import Mathlib

/-!
# The form controller of `static/js/app.js`

A shallow embedding of the two click handlers of `static/js/app.js` (the
fetch-transcript handler, lines 4-35, and the translate handler, lines 37-68)
and of `showLoading` (lines 70-72), together with the parts of the ECMAScript
and DOM semantics those lines rely on.

Conventions of the embedding.

* JavaScript strings are Lean `String`s; the builtins work on the list of
  characters.  Every character that `trim` and `split(",")` look at lies in
  the Basic Multilingual Plane, so working on code points instead of UTF-16
  code units does not change their results on well-formed strings.
* A value obtained from `res.json()` is a `JSVal`.  A Number is carried by the
  text `ToString` gives for it, which is all the handlers can observe of it.
* The page is a record `Page` holding the two script variables, the properties
  of the elements the handlers touch, and two logs: the requests handed to
  `fetch` and the messages handed to `alert`.  The elements named by
  `getElementById` are taken to exist, and the two text fields are taken to
  store the assigned string as it is.
* A handler runs up to its first `await` (`fetchClickStart`,
  `translateClickStart`) and is resumed with the `Reply` of the network
  (`fetchClickResume`, `translateClickResume`).  A request that never settles
  has no `Reply`; the handler then never resumes.  `fetchClick` and
  `translateClick` are one run of a handler with no other handler running
  between its two phases.
-/

namespace AppJs

/-! ## ECMAScript builtins -/

/-- The code points `String.prototype.trim` strips: the ECMAScript `WhiteSpace`
and `LineTerminator` productions. -/
def isTrimChar (c : Char) : Bool :=
  c.toNat = 0x09 || c.toNat = 0x0A || c.toNat = 0x0B || c.toNat = 0x0C || c.toNat = 0x0D ||
  c.toNat = 0x20 || c.toNat = 0xA0 || c.toNat = 0x1680 ||
  (0x2000 ≤ c.toNat && c.toNat ≤ 0x200A) ||
  c.toNat = 0x2028 || c.toNat = 0x2029 || c.toNat = 0x202F || c.toNat = 0x205F ||
  c.toNat = 0x3000 || c.toNat = 0xFEFF

/-- The characters of `s.trim()`: leading, then trailing, strippable code points removed. -/
def trimChars (cs : List Char) : List Char :=
  (cs.dropWhile isTrimChar).rdropWhile isTrimChar

/-- The method `String.prototype.trim`. -/
def jsTrim (s : String) : String := ⟨trimChars s.data⟩

/-- The scan of `String.prototype.split` with separator `","`: `cur` holds, reversed, the
characters read since the last separator. -/
def splitCommaScan : List Char → List Char → List (List Char)
  | [], cur => [cur.reverse]
  | c :: cs, cur =>
    if c = ',' then cur.reverse :: splitCommaScan cs [] else splitCommaScan cs (c :: cur)

/-- The call `s.split(",")`. -/
def jsSplitComma (s : String) : List String :=
  (splitCommaScan s.data []).map String.mk

/-- The call `parts.join(sep)` on an array of strings. -/
def jsJoinStrings (sep : String) (parts : List String) : String :=
  sep.intercalate parts

/-! ## Values delivered by `res.json()` -/

/-- A JavaScript value as `res.json()` can deliver it, plus `undefined` for the read of a
property that is not there. -/
inductive JSVal where
  | undefined
  | null
  | bool (b : Bool)
  | num (text : String)
  | str (s : String)
  | arr (items : List JSVal)
  | obj (fields : List (String × JSVal))

namespace JSVal

/-- Whether the object with these own properties has an own property `k`. -/
def hasOwn (k : String) : List (String × JSVal) → Bool
  | [] => false
  | (k', _) :: rest => k' == k || hasOwn k rest

/-- The own property `k` of the object with these own properties, `undefined` without one. -/
def ownProp (k : String) : List (String × JSVal) → JSVal
  | [] => undefined
  | (k', v) :: rest => if k' == k then v else ownProp k rest

/-- The read `v.k` for a key `k` that no builtin prototype defines (the handlers read
`transcript`, `source_lang`, `suggested_terms`, `error` and `translated`): `none` is the
`TypeError` of a read on `undefined` or `null`. -/
def getProp (k : String) : JSVal → Option JSVal
  | undefined => none
  | null => none
  | obj fields => some (ownProp k fields)
  | _ => some undefined

/-- The abstract operation `ToBoolean`. -/
def truthy : JSVal → Bool
  | undefined => false
  | null => false
  | bool b => b
  | num text => text != "0" && text != "NaN"
  | str s => s != ""
  | arr _ => true
  | obj _ => true

mutual
/-- The abstract operation `ToString`; `none` is a thrown `TypeError`.  An array is rendered
by `Array.prototype.join` with `","`.  A parsed object has no callable own property, so it is
rendered `[object Object]` by `Object.prototype.toString` unless an own `toString` property
shadows that method, in which case no conversion applies. -/
def toStr : JSVal → Option String
  | undefined => some "undefined"
  | null => some "null"
  | bool b => some (if b then "true" else "false")
  | num text => some text
  | str s => some s
  | arr items => (itemTexts items).map (String.intercalate ",")
  | obj fields => if hasOwn "toString" fields then none else some "[object Object]"
termination_by structural v => v
/-- The texts `Array.prototype.join` concatenates: the empty string for `undefined` and
`null`, `ToString` of the element otherwise. -/
def itemTexts : List JSVal → Option (List String)
  | [] => some []
  | v :: rest =>
    match (match v with
           | undefined => some ""
           | null => some ""
           | w => toStr w), itemTexts rest with
    | some t, some ts => some (t :: ts)
    | _, _ => none
termination_by structural vs => vs
end

/-- The call `v.join(sep)`: only an array has a callable `join`. -/
def callJoin (sep : String) : JSVal → Option String
  | arr items => (itemTexts items).map (String.intercalate sep)
  | _ => none

/-- The conversion applied by the `textContent` setter: `undefined` and `null` give the empty
string, every other value goes through `ToString`. -/
def textContentOf : JSVal → Option String
  | undefined => some ""
  | null => some ""
  | v => toStr v

end JSVal

/-! ## The page -/

/-- The object passed to `JSON.stringify` as the body of a request. -/
inductive Body where
  | fetch (video_url : String)
  | translate (transcript source_lang : JSVal) (target_lang : String)
      (preserve_terms : List String)

/-- A call of `fetch`: the URL, the method, the `Content-Type` header and the body. -/
structure Request where
  url : String
  method : String
  contentType : String
  body : Body

/-- How the network settles one request: the `fetch` promise rejects; it resolves but
`res.json()` rejects; or `res.json()` resolves with `data`. -/
inductive Reply where
  | rejected
  | unparsable (ok : Bool)
  | parsed (ok : Bool) (data : JSVal)

/-- The script variables, the element properties the handlers read and write, and the logs of
the calls to `fetch` and `alert`. -/
structure Page where
  fetchedTranscript : JSVal
  detectedLang : JSVal
  videoUrl : String
  urlError : String
  loading : String
  originalTranscript : String
  preserveTerms : String
  results : String
  translateDisabled : Bool
  targetLanguage : String
  translatedTranscript : String
  requests : List Request
  alerts : List String

/-- The function `showLoading` (lines 70-72). -/
def showLoading (isLoading : Bool) (p : Page) : Page :=
  { p with loading := if isLoading then "block" else "none" }

/-! ## The fetch handler (lines 4-35) -/

/-- Lines 5-18: the handler up to its first `await`.  The flag tells whether a request was
handed to `fetch` (the handler is suspended) or the handler has returned. -/
def fetchClickStart (p : Page) : Page × Bool :=
  let videoUrl := jsTrim p.videoUrl
  if videoUrl = "" then
    ({ p with urlError := "Please enter a YouTube URL" }, false)
  else
    let p1 := { p with urlError := "" }
    let p2 := showLoading true p1
    ({ p2 with requests := p2.requests ++
        [⟨"/fetch_transcript", "POST", "application/json", Body.fetch videoUrl⟩] }, true)

/-- Lines 14-30 after the request was made: the rest of the `try` block.  The flag tells
whether an exception left the block; the page is the one reached at that point. -/
def fetchTry (p : Page) : Reply → Page × Bool
  | Reply.rejected => (p, true)
  | Reply.unparsable _ => (p, true)
  | Reply.parsed true data =>
    match data.getProp "transcript" with
    | none => (p, true)
    | some t =>
      let p1 := { p with fetchedTranscript := t }
      match data.getProp "source_lang" with
      | none => (p1, true)
      | some l =>
        let p2 := { p1 with detectedLang := l }
        match p2.fetchedTranscript.textContentOf with
        | none => (p2, true)
        | some text =>
          let p3 := { p2 with originalTranscript := text }
          match (data.getProp "suggested_terms").bind (JSVal.callJoin ", ") with
          | none => (p3, true)
          | some joined =>
            ({ p3 with preserveTerms := joined, results := "flex",
                       translateDisabled := false }, false)
  | Reply.parsed false data =>
    match data.getProp "error" with
    | none => (p, true)
    | some e =>
      match (if e.truthy then e else JSVal.str "Failed to fetch transcript").textContentOf with
      | none => (p, true)
      | some msg => ({ p with urlError := msg }, false)

/-- Lines 13-34: the `try` block, the `catch` clause and the closing `showLoading(false)`. -/
def fetchClickResume (p : Page) (r : Reply) : Page :=
  match fetchTry p r with
  | (p1, true) => showLoading false { p1 with urlError := "Error connecting to server" }
  | (p1, false) => showLoading false p1

/-- One run of the fetch handler whose request, if it makes one, is settled by `r`. -/
def fetchClick (p : Page) (r : Reply) : Page :=
  match fetchClickStart p with
  | (p1, true) => fetchClickResume p1 r
  | (p1, false) => p1

/-! ## The translate handler (lines 37-68) -/

/-- Lines 39-42: the parse of the preserve-terms field. -/
def parsePreserveTerms (field : String) : List String :=
  ((jsSplitComma field).map jsTrim).filter (fun t => t.length > 0)

/-- Lines 38-56: the handler up to its first `await`; it always hands a request to `fetch`. -/
def translateClickStart (p : Page) : Page :=
  let targetLang := p.targetLanguage
  let preserveTerms := parsePreserveTerms p.preserveTerms
  let p1 := showLoading true p
  { p1 with requests := p1.requests ++
      [⟨"/translate_transcript", "POST", "application/json",
        Body.translate p1.fetchedTranscript p1.detectedLang targetLang preserveTerms⟩] }

/-- Lines 47-63 after the request was made: the rest of the `try` block, with the flag of
`fetchTry`. -/
def translateTry (p : Page) : Reply → Page × Bool
  | Reply.rejected => (p, true)
  | Reply.unparsable _ => (p, true)
  | Reply.parsed true data =>
    match (data.getProp "translated").bind JSVal.textContentOf with
    | none => (p, true)
    | some text => ({ p with translatedTranscript := text }, false)
  | Reply.parsed false data =>
    match data.getProp "error" with
    | none => (p, true)
    | some e =>
      match (if e.truthy then e else JSVal.str "Translation failed").toStr with
      | none => (p, true)
      | some msg => ({ p with alerts := p.alerts ++ [msg] }, false)

/-- Lines 46-67: the `try` block, the `catch` clause and the closing `showLoading(false)`. -/
def translateClickResume (p : Page) (r : Reply) : Page :=
  match translateTry p r with
  | (p1, true) => showLoading false { p1 with alerts := p1.alerts ++ ["Error connecting to server"] }
  | (p1, false) => showLoading false p1

/-- One run of the translate handler whose request is settled by `r`. -/
def translateClick (p : Page) (r : Reply) : Page :=
  translateClickResume (translateClickStart p) r

/-- The parse of the preserve-terms text as the specification words it: split the text on
commas, trim whitespace from each segment, drop the segments that are then empty. -/
def specPreserveTerms (s : String) : List String :=
  (((s.data.splitOn ',').map trimChars).filter (fun seg => decide (seg ≠ []))).map String.mk

/-- The `fetch` call of the fetch handler for the trimmed URL `v`. -/
def fetchRequest (v : String) : Request :=
  ⟨"/fetch_transcript", "POST", "application/json", Body.fetch v⟩

/-- The `fetch` call of the translate handler. -/
def translateRequest (transcript source_lang : JSVal) (target_lang : String)
    (preserve_terms : List String) : Request :=
  ⟨"/translate_transcript", "POST", "application/json",
    Body.translate transcript source_lang target_lang preserve_terms⟩

/-! ## The scenarios of the specification -/

/-- The page before any click of the specification's scenarios: the script variables hold
the empty string, the URL field holds `url`, nothing is displayed and the translate button
is disabled. -/
def scenarioPage (url : String) : Page :=
  ⟨JSVal.str "", JSVal.str "", url, "", "none", "", "", "none", true, "fr", "", [], []⟩

/-- The page of the specification's translate scenario: a fetch has stored the transcript
"hello" in the language "en", the target language is "fr" and no term is to be preserved. -/
def translateScenarioPage : Page :=
  ⟨JSVal.str "hello", JSVal.str "en", "https://youtu.be/abc", "", "none", "hello", "",
    "flex", false, "fr", "", [], []⟩

/-- The body of the successful reply in the specification's fetch scenario. -/
def scenarioFetchBody : JSVal :=
  JSVal.obj [("transcript", JSVal.str "hello"), ("source_lang", JSVal.str "en"),
    ("suggested_terms", JSVal.arr [JSVal.str "hello"])]

/-- The body of the successful reply in the specification's translate scenario. -/
def scenarioTranslateBody : JSVal :=
  JSVal.obj [("translated", JSVal.str "bonjour")]

/-- A successful reply whose body has no `suggested_terms`. -/
def bodyWithoutTerms : JSVal :=
  JSVal.obj [("transcript", JSVal.str "hello"), ("source_lang", JSVal.str "en")]

/-- A failure reply whose body carries the empty text as its `error`. -/
def bodyWithEmptyError : JSVal :=
  JSVal.obj [("error", JSVal.str "")]

/-- A failure reply whose body carries a message of the server as its `error`. -/
def bodyWithServerError : JSVal :=
  JSVal.obj [("error", JSVal.str "No captions")]

/-- A page on which a fetch request is still pending and whose URL field was then cleared. -/
def busyPageWithoutUrl : Page :=
  { (fetchClickStart (scenarioPage "https://youtu.be/abc")).1 with videoUrl := "" }

/-! ## Vocabulary of the claims -/

/-- Whether the reply takes the `try` block of the fetch handler to the assignment of line 22:
an OK response whose parsed body allows the read of `transcript`, which is every parsed value
but `null`. -/
def Reply.reachesAssignment : Reply → Bool
  | Reply.parsed true data => (data.getProp "transcript").isSome
  | _ => false

/-- Whether lines 24 and 25 convert the body without a `TypeError`: `transcript` converts to
text and `suggested_terms` is an array whose elements convert to text. -/
def bodyConverts (data : JSVal) : Bool :=
  ((data.getProp "transcript").bind JSVal.textContentOf).isSome &&
  ((data.getProp "suggested_terms").bind (JSVal.callJoin ", ")).isSome

/-- The session state and the result fields of `q` are those of `p`. -/
def resultsUntouched (p q : Page) : Prop :=
  q.fetchedTranscript = p.fetchedTranscript ∧ q.detectedLang = p.detectedLang ∧
  q.originalTranscript = p.originalTranscript ∧ q.preserveTerms = p.preserveTerms ∧
  q.results = p.results ∧ q.translateDisabled = p.translateDisabled

/-- The session state and the result fields of `q` are all set from the body `data`. -/
def resultsSetFrom (data : JSVal) (q : Page) : Prop :=
  data.getProp "transcript" = some q.fetchedTranscript ∧
  data.getProp "source_lang" = some q.detectedLang ∧
  q.fetchedTranscript.textContentOf = some q.originalTranscript ∧
  (data.getProp "suggested_terms").bind (JSVal.callJoin ", ") = some q.preserveTerms ∧
  q.results = "flex" ∧ q.translateDisabled = false

/-- The value read from an optional text property. -/
def optionalText : Option String → JSVal
  | none => JSVal.undefined
  | some s => JSVal.str s

/-- The message for an optional `error` text and the fallback of the operation, as
`data.error || fallback` selects it. -/
def errorOrFallback (e : Option String) (fallback : String) : String :=
  match e with
  | some s => if s = "" then fallback else s
  | none => fallback

/-- Whether a suggested term is non-empty, has no whitespace as its first or last character
and contains no comma. -/
def isCleanTerm (t : String) : Bool :=
  t.data.head?.map isTrimChar == some false &&
  t.data.getLast?.map isTrimChar == some false &&
  !t.data.contains ','

/-! ## Lemmas on the builtins -/

theorem splitCommaScan_eq_go (cs cur : List Char) :
    splitCommaScan cs cur = List.splitOnP.go (fun c => c == ',') cs cur := by
  induction cs generalizing cur with
  | nil => rfl
  | cons c cs ih =>
    by_cases h : c = ','
    · simp [splitCommaScan, List.splitOnP.go, h, ih]
    · simp [splitCommaScan, List.splitOnP.go, h, ih]

theorem splitCommaScan_eq_splitOn (cs : List Char) :
    splitCommaScan cs [] = cs.splitOn ',' := by
  rw [splitCommaScan_eq_go]; rfl

theorem trimChars_eq_nil_of_all (cs : List Char) (h : ∀ c ∈ cs, isTrimChar c = true) :
    trimChars cs = [] := by
  have h1 : cs.dropWhile isTrimChar = [] := by
    rw [List.dropWhile_eq_nil_iff]; exact h
  simp [trimChars, h1]

theorem parsePreserveTerms_eq_spec (s : String) :
    parsePreserveTerms s = specPreserveTerms s := by
  simp only [parsePreserveTerms, specPreserveTerms, jsSplitComma, splitCommaScan_eq_splitOn,
    List.map_map, List.filter_map]
  congr 1
  apply List.filter_congr
  intro seg _
  show decide ((trimChars seg).length > 0) = decide (trimChars seg ≠ [])
  exact decide_eq_decide.mpr List.length_pos

theorem intercalate_go_append (sep : String) (parts : List String) (x acc : String) :
    String.intercalate.go (x ++ acc) sep parts = x ++ String.intercalate.go acc sep parts := by
  induction parts generalizing acc with
  | nil => rfl
  | cons a parts ih =>
    simp only [String.intercalate.go]
    rw [String.append_assoc, String.append_assoc, ih, String.append_assoc]

theorem intercalate_cons_cons (sep t t' : String) (rest : List String) :
    sep.intercalate (t :: t' :: rest) = t ++ sep ++ sep.intercalate (t' :: rest) := by
  simp only [String.intercalate, String.intercalate.go]
  rw [intercalate_go_append]

theorem splitCommaScan_segment (seg rest cur : List Char) (h : ',' ∉ seg) :
    splitCommaScan (seg ++ rest) cur = splitCommaScan rest (seg.reverse ++ cur) := by
  induction seg generalizing cur with
  | nil => rfl
  | cons c seg ih =>
    have hc : c ≠ ',' := fun hc => h (hc ▸ List.mem_cons_self _ _)
    have hseg : ',' ∉ seg := fun hm => h (List.mem_cons_of_mem _ hm)
    simp [splitCommaScan, hc, ih _ hseg]

theorem splitCommaScan_joined (t : String) (ts : List String) (cur : List Char)
    (h : ∀ x ∈ t :: ts, ',' ∉ x.data) :
    splitCommaScan (jsJoinStrings ", " (t :: ts)).data cur =
      (cur.reverse ++ t.data) :: ts.map (fun x => ' ' :: x.data) := by
  induction ts generalizing t cur with
  | nil =>
    have ht : ',' ∉ t.data := h t (List.mem_cons_self _ _)
    have := splitCommaScan_segment t.data [] cur ht
    simpa [jsJoinStrings, String.intercalate, String.intercalate.go, splitCommaScan] using this
  | cons t' ts ih =>
    have ht : ',' ∉ t.data := h t (List.mem_cons_self _ _)
    have hrest : ∀ x ∈ t' :: ts, ',' ∉ x.data := fun x hx => h x (List.mem_cons_of_mem _ hx)
    have hjoin : (jsJoinStrings ", " (t :: t' :: ts)).data =
        t.data ++ (',' :: ' ' :: (jsJoinStrings ", " (t' :: ts)).data) := by
      simp [jsJoinStrings, intercalate_cons_cons, String.data_append]
    rw [hjoin, splitCommaScan_segment _ _ _ ht]
    simp [splitCommaScan, ih t' [' '] hrest]

theorem trimChars_clean (cs : List Char)
    (hh : cs.head?.map isTrimChar = some false)
    (hl : cs.getLast?.map isTrimChar = some false) :
    trimChars cs = cs ∧ trimChars (' ' :: cs) = cs := by
  cases cs with
  | nil => simp at hh
  | cons c cs' =>
    have hc : isTrimChar c = false := by simpa using hh
    have hlast : ∀ hne : c :: cs' ≠ [], ¬ isTrimChar ((c :: cs').getLast hne) = true := by
      intro hne
      rw [List.getLast?_eq_getLast _ hne] at hl
      simpa using hl
    have hd : (c :: cs').dropWhile isTrimChar = c :: cs' := by
      simp [List.dropWhile, hc]
    have hsp : isTrimChar ' ' = true := by decide
    have hd2 : (' ' :: c :: cs').dropWhile isTrimChar = c :: cs' := by
      rw [List.dropWhile_cons_of_pos hsp, hd]
    have hr : (c :: cs').rdropWhile isTrimChar = c :: cs' :=
      List.rdropWhile_eq_self_iff.mpr hlast
    exact ⟨by rw [trimChars, hd, hr], by rw [trimChars, hd2, hr]⟩

theorem isCleanTerm_iff (t : String) :
    isCleanTerm t = true ↔
      t.data.head?.map isTrimChar = some false ∧
      t.data.getLast?.map isTrimChar = some false ∧ ',' ∉ t.data := by
  simp [isCleanTerm, and_assoc]

theorem parsePreserveTerms_joined (ts : List String) (h : ∀ x ∈ ts, isCleanTerm x = true) :
    parsePreserveTerms (jsJoinStrings ", " ts) = ts := by
  cases ts with
  | nil => decide
  | cons t ts =>
    have hcomma : ∀ x ∈ t :: ts, ',' ∉ x.data := fun x hx =>
      ((isCleanTerm_iff x).mp (h x hx)).2.2
    have htrim : ∀ x ∈ t :: ts, jsTrim x = x ∧ jsTrim ⟨' ' :: x.data⟩ = x := by
      intro x hx
      obtain ⟨h1, h2, _⟩ := (isCleanTerm_iff x).mp (h x hx)
      obtain ⟨e1, e2⟩ := trimChars_clean x.data h1 h2
      exact ⟨by simp [jsTrim, e1], by simp [jsTrim, e2]⟩
    have hlen : ∀ x ∈ t :: ts, decide (x.length > 0) = true := by
      intro x hx
      obtain ⟨h1, _, _⟩ := (isCleanTerm_iff x).mp (h x hx)
      cases hd : x.data with
      | nil => simp [hd] at h1
      | cons c cs => simp [String.length, hd]
    have hmap : ((jsSplitComma (jsJoinStrings ", " (t :: ts))).map jsTrim) = t :: ts := by
      rw [jsSplitComma, splitCommaScan_joined t ts [] hcomma]
      simp only [List.reverse_nil, List.nil_append, List.map_cons, List.map_map]
      rw [(htrim t (List.mem_cons_self _ _)).1]
      congr 1
      have : ∀ x ∈ ts, (jsTrim ∘ String.mk ∘ fun x => ' ' :: x.data) x = id x := fun x hx =>
        (htrim x (List.mem_cons_of_mem _ hx)).2
      rw [List.map_congr_left this, List.map_id]
    rw [parsePreserveTerms, hmap]
    exact List.filter_eq_self.mpr hlen

/-! ## Lemmas on the handlers -/

theorem fetchClickStart_blank (p : Page) (h : jsTrim p.videoUrl = "") :
    fetchClickStart p = ({ p with urlError := "Please enter a YouTube URL" }, false) := by
  simp [fetchClickStart, h]

theorem fetchClickStart_url (p : Page) (h : jsTrim p.videoUrl ≠ "") :
    fetchClickStart p =
      ({ p with urlError := "", loading := "block",
                requests := p.requests ++ [fetchRequest (jsTrim p.videoUrl)] }, true) := by
  simp [fetchClickStart, h, showLoading, fetchRequest]

theorem fetchTry_requests (p : Page) (r : Reply) : (fetchTry p r).1.requests = p.requests := by
  rcases r with _ | ok | ⟨ok, data⟩
  · rfl
  · rfl
  · cases ok <;> simp only [fetchTry] <;> repeat' (split <;> try rfl)

theorem fetchClickResume_requests (p : Page) (r : Reply) :
    (fetchClickResume p r).requests = p.requests := by
  have h := fetchTry_requests p r
  unfold fetchClickResume
  split <;> rename_i p1 heq <;> rw [heq] at h <;> simpa [showLoading] using h

theorem translateTry_frame (p : Page) (r : Reply) :
    (translateTry p r).1.requests = p.requests ∧
    (translateTry p r).1.fetchedTranscript = p.fetchedTranscript ∧
    (translateTry p r).1.detectedLang = p.detectedLang ∧
    (translateTry p r).1.urlError = p.urlError := by
  rcases r with _ | ok | ⟨ok, data⟩
  · exact ⟨rfl, rfl, rfl, rfl⟩
  · exact ⟨rfl, rfl, rfl, rfl⟩
  · cases ok <;> simp only [translateTry] <;> repeat' (split <;> try exact ⟨rfl, rfl, rfl, rfl⟩)

theorem translateClickResume_frame (p : Page) (r : Reply) :
    (translateClickResume p r).requests = p.requests ∧
    (translateClickResume p r).fetchedTranscript = p.fetchedTranscript ∧
    (translateClickResume p r).detectedLang = p.detectedLang ∧
    (translateClickResume p r).urlError = p.urlError ∧
    (translateClickResume p r).loading = "none" := by
  have h := translateTry_frame p r
  unfold translateClickResume
  split <;> rename_i p1 heq <;> rw [heq] at h <;> simpa [showLoading] using h

theorem translateClick_requests (p : Page) (r : Reply) :
    (translateClick p r).requests = p.requests ++
      [translateRequest p.fetchedTranscript p.detectedLang p.targetLanguage
        (parsePreserveTerms p.preserveTerms)] := by
  rw [translateClick, (translateClickResume_frame _ r).1]
  rfl

theorem itemTexts_map_str (ts : List String) :
    JSVal.itemTexts (ts.map JSVal.str) = some ts := by
  induction ts with
  | nil => rfl
  | cons t ts ih => simp [JSVal.itemTexts, JSVal.toStr, ih]

theorem fetchTry_untouched (p : Page) (r : Reply) (h : r.reachesAssignment = false) :
    resultsUntouched p (fetchTry p r).1 := by
  rcases r with _ | ok | ⟨ok, data⟩
  · exact ⟨rfl, rfl, rfl, rfl, rfl, rfl⟩
  · exact ⟨rfl, rfl, rfl, rfl, rfl, rfl⟩
  · cases ok
    · simp only [fetchTry]
      repeat' (split <;> try exact ⟨rfl, rfl, rfl, rfl, rfl, rfl⟩)
    · simp only [Reply.reachesAssignment] at h
      cases hd : data.getProp "transcript" with
      | none => simp [fetchTry, hd, resultsUntouched]
      | some t => simp [hd] at h

theorem fetchClickResume_untouched (p : Page) (r : Reply) (h : r.reachesAssignment = false) :
    resultsUntouched p (fetchClickResume p r) := by
  have h := fetchTry_untouched p r h
  unfold fetchClickResume
  split <;> rename_i p1 heq <;> rw [heq] at h <;> simpa [showLoading, resultsUntouched] using h

theorem fetchClick_untouched (p : Page) (r : Reply)
    (h : jsTrim p.videoUrl = "" ∨ r.reachesAssignment = false) :
    resultsUntouched p (fetchClick p r) := by
  by_cases hb : jsTrim p.videoUrl = ""
  · simp [fetchClick, fetchClickStart_blank p hb, resultsUntouched]
  · have hr := fetchClickResume_untouched
      { p with urlError := "", loading := "block",
               requests := p.requests ++ [fetchRequest (jsTrim p.videoUrl)] } r
      (h.resolve_left hb)
    simpa [fetchClick, fetchClickStart_url p hb, resultsUntouched] using hr

theorem getProp_isSome (k k' : String) (data : JSVal) (h : (data.getProp k).isSome = true) :
    ∃ v, data.getProp k' = some v := by
  cases data <;> simp [JSVal.getProp] at h ⊢

theorem textContentOf_optional (e : Option String) (fallback : String) :
    (if (optionalText e).truthy = true then optionalText e
      else JSVal.str fallback).textContentOf = some (errorOrFallback e fallback) := by
  cases e with
  | none => simp [optionalText, JSVal.truthy, JSVal.textContentOf, JSVal.toStr, errorOrFallback]
  | some s =>
    by_cases hs : s = "" <;>
      simp [optionalText, JSVal.truthy, JSVal.textContentOf, JSVal.toStr, errorOrFallback, hs]

theorem toStr_optional (e : Option String) (fallback : String) :
    (if (optionalText e).truthy = true then optionalText e
      else JSVal.str fallback).toStr = some (errorOrFallback e fallback) := by
  cases e with
  | none => simp [optionalText, JSVal.truthy, JSVal.toStr, errorOrFallback]
  | some s =>
    by_cases hs : s = "" <;> simp [optionalText, JSVal.truthy, JSVal.toStr, errorOrFallback, hs]

theorem fetchClickResume_loading (p : Page) (r : Reply) :
    (fetchClickResume p r).loading = "none" := by
  unfold fetchClickResume
  split <;> rfl

theorem fetchClick_requests (p : Page) (r : Reply) (h : jsTrim p.videoUrl ≠ "") :
    (fetchClick p r).requests = p.requests ++ [fetchRequest (jsTrim p.videoUrl)] := by
  simp [fetchClick, fetchClickStart_url p h, fetchClickResume_requests]

theorem fetchClick_success (p : Page) (data : JSVal) (t l : String) (ts : List String)
    (hurl : jsTrim p.videoUrl ≠ "")
    (ht : data.getProp "transcript" = some (JSVal.str t))
    (hl : data.getProp "source_lang" = some (JSVal.str l))
    (hs : data.getProp "suggested_terms" = some (JSVal.arr (ts.map JSVal.str))) :
    fetchClick p (Reply.parsed true data) =
      { p with fetchedTranscript := JSVal.str t, detectedLang := JSVal.str l, urlError := "",
               loading := "none", originalTranscript := t,
               preserveTerms := jsJoinStrings ", " ts, results := "flex",
               translateDisabled := false,
               requests := p.requests ++ [fetchRequest (jsTrim p.videoUrl)] } := by
  simp [fetchClick, fetchClickStart_url p hurl, fetchClickResume, fetchTry, ht, hl, hs,
    JSVal.textContentOf, JSVal.toStr, JSVal.callJoin, itemTexts_map_str, showLoading,
    jsJoinStrings]

/-! ## The claims -/

/-- C1. When the trimmed value of the URL field is not empty, one run of the fetch handler
hands exactly one request to `fetch`, whatever the reply: a POST to `/fetch_transcript`
whose body is `video_url` set to the trimmed value. -/
theorem fetch_issues_one_request (p : Page) (r : Reply) (h : jsTrim p.videoUrl ≠ "") :
    (fetchClick p r).requests = p.requests ++ [fetchRequest (jsTrim p.videoUrl)] :=
  fetchClick_requests p r h

/-- Witness of C1: the URL of the specification's scenario, padded with blanks, and a
rejected request. -/
theorem fetch_issues_one_request_witness :
    jsTrim "  https://youtu.be/abc " ≠ "" ∧
    (fetchClick (scenarioPage "  https://youtu.be/abc ") Reply.rejected).requests =
      [] ++ [fetchRequest "https://youtu.be/abc"] :=
  ⟨by decide, fetch_issues_one_request (scenarioPage "  https://youtu.be/abc ") Reply.rejected
    (by decide)⟩

/-- C2. When every character of the URL field is whitespace (the empty field included), a run
of the fetch handler hands no request to `fetch` and sets the text of `url-error` to
"Please enter a YouTube URL". -/
theorem fetch_blank_url_rejected (p : Page) (r : Reply)
    (h : ∀ c ∈ p.videoUrl.data, isTrimChar c = true) :
    (fetchClickStart p).2 = false ∧
    (fetchClick p r).requests = p.requests ∧
    (fetchClick p r).urlError = "Please enter a YouTube URL" := by
  have hb : jsTrim p.videoUrl = "" := by
    simp [jsTrim, trimChars_eq_nil_of_all _ h]
  simp [fetchClick, fetchClickStart_blank p hb]

/-- Witness of C2: a URL field holding a blank, a tab and a line feed. -/
theorem fetch_blank_url_rejected_witness :
    (" \t\n" : String).data.all isTrimChar = true ∧
    (fetchClick (scenarioPage " \t\n") (Reply.parsed true scenarioFetchBody)).requests = [] ∧
    (fetchClick (scenarioPage " \t\n") (Reply.parsed true scenarioFetchBody)).urlError =
      "Please enter a YouTube URL" :=
  ⟨by decide, (fetch_blank_url_rejected (scenarioPage " \t\n") _ (by decide)).2⟩

/-- C3. The `preserve_terms` list in the request of the translate handler is the text of the
preserve-terms field split on commas, each segment trimmed, the empty segments dropped, the
others in their order; for the text " x ,, y,z " it is x, y, z. -/
theorem translate_sends_parsed_terms :
    (∀ (p : Page) (r : Reply),
      (translateClick p r).requests = p.requests ++
        [translateRequest p.fetchedTranscript p.detectedLang p.targetLanguage
          (specPreserveTerms p.preserveTerms)]) ∧
    specPreserveTerms " x ,, y,z " = ["x", "y", "z"] := by
  refine ⟨fun p r => ?_, by decide⟩
  rw [translateClick_requests, parsePreserveTerms_eq_spec]

/-- C4. A run of the fetch handler with a non-empty trimmed URL that is answered with OK
status and a body whose `transcript` is the text `t`, whose `source_lang` is the text `l`
and whose `suggested_terms` is the array of texts `ts` ends with `fetchedTranscript` = `t`,
`detectedLang` = `l`, the original-transcript region showing `t`, the preserve-terms field
holding `ts` joined by ", ", the results panel displayed and the translate button enabled. -/
theorem fetch_success_updates (p : Page) (data : JSVal) (t l : String) (ts : List String)
    (hurl : jsTrim p.videoUrl ≠ "")
    (ht : data.getProp "transcript" = some (JSVal.str t))
    (hl : data.getProp "source_lang" = some (JSVal.str l))
    (hs : data.getProp "suggested_terms" = some (JSVal.arr (ts.map JSVal.str))) :
    (fetchClick p (Reply.parsed true data)).fetchedTranscript = JSVal.str t ∧
    (fetchClick p (Reply.parsed true data)).detectedLang = JSVal.str l ∧
    (fetchClick p (Reply.parsed true data)).originalTranscript = t ∧
    (fetchClick p (Reply.parsed true data)).preserveTerms = jsJoinStrings ", " ts ∧
    (fetchClick p (Reply.parsed true data)).results = "flex" ∧
    (fetchClick p (Reply.parsed true data)).translateDisabled = false := by
  rw [fetchClick_success p data t l ts hurl ht hl hs]
  exact ⟨rfl, rfl, rfl, rfl, rfl, rfl⟩

/-- Witness of C4: the end-to-end scenario of the specification, and the two joins it names. -/
theorem fetch_success_updates_witness :
    (fetchClick (scenarioPage "https://youtu.be/abc")
      (Reply.parsed true scenarioFetchBody)).originalTranscript = "hello" ∧
    (fetchClick (scenarioPage "https://youtu.be/abc")
      (Reply.parsed true scenarioFetchBody)).preserveTerms = jsJoinStrings ", " ["hello"] ∧
    (fetchClick (scenarioPage "https://youtu.be/abc")
      (Reply.parsed true scenarioFetchBody)).translateDisabled = false ∧
    jsJoinStrings ", " ["hello"] = "hello" ∧ jsJoinStrings ", " ["a", "b"] = "a, b" :=
  have h := fetch_success_updates (scenarioPage "https://youtu.be/abc") scenarioFetchBody
    "hello" "en" ["hello"] (by decide) rfl rfl rfl
  ⟨h.2.2.1, h.2.2.2.1, h.2.2.2.2.2, by decide, by decide⟩

/-- C5. A run of the translate handler hands one request to `fetch`, a POST to
`/translate_transcript` carrying the stored `fetchedTranscript` and `detectedLang`, the
selected target language and the parsed terms; and when the reply has OK status and a body
whose `translated` is the text `x`, the translated-transcript region then shows `x`. -/
theorem translate_request_and_success (p : Page) (r : Reply) (data : JSVal) (x : String)
    (hx : data.getProp "translated" = some (JSVal.str x)) :
    (translateClick p r).requests = p.requests ++
      [translateRequest p.fetchedTranscript p.detectedLang p.targetLanguage
        (parsePreserveTerms p.preserveTerms)] ∧
    (translateClick p (Reply.parsed true data)).translatedTranscript = x := by
  refine ⟨translateClick_requests p r, ?_⟩
  simp [translateClick, translateClickResume, translateTry, hx, JSVal.textContentOf,
    JSVal.toStr, showLoading]

/-- Witness of C5: the translate scenario of the specification. -/
theorem translate_request_and_success_witness :
    (translateClick translateScenarioPage Reply.rejected).requests =
      [] ++ [translateRequest (JSVal.str "hello") (JSVal.str "en") "fr" []] ∧
    (translateClick translateScenarioPage
      (Reply.parsed true scenarioTranslateBody)).translatedTranscript = "bonjour" :=
  translate_request_and_success translateScenarioPage Reply.rejected scenarioTranslateBody
    "bonjour" rfl

/-- Counterexample to C6: an OK reply whose body has no `suggested_terms` makes line 25 throw,
the run ends with the connection-error message, and `fetchedTranscript` has changed from the
empty text to "hello". -/
theorem session_state_changed_on_throw :
    (fetchTry (fetchClickStart (scenarioPage "https://youtu.be/abc")).1
      (Reply.parsed true bodyWithoutTerms)).2 = true ∧
    (fetchClick (scenarioPage "https://youtu.be/abc")
      (Reply.parsed true bodyWithoutTerms)).urlError = "Error connecting to server" ∧
    (fetchClick (scenarioPage "https://youtu.be/abc")
      (Reply.parsed true bodyWithoutTerms)).fetchedTranscript ≠
      (scenarioPage "https://youtu.be/abc").fetchedTranscript := by
  refine ⟨by decide, by decide, ?_⟩
  show JSVal.str "hello" ≠ JSVal.str ""
  intro h
  injection h with h
  exact absurd h (by decide)

/-- C6, amended. `fetchedTranscript` and `detectedLang` are the same after as before every
run of the fetch handler that aborts on a blank URL or whose reply does not take the `try`
block to line 22 (a non-OK response, a rejected `fetch` or `res.json()`, an OK response whose
body is `null`), and after every run of the translate handler. -/
theorem session_state_frame (p : Page) (r r2 : Reply)
    (h : jsTrim p.videoUrl = "" ∨ r.reachesAssignment = false) :
    (fetchClick p r).fetchedTranscript = p.fetchedTranscript ∧
    (fetchClick p r).detectedLang = p.detectedLang ∧
    (translateClick p r2).fetchedTranscript = p.fetchedTranscript ∧
    (translateClick p r2).detectedLang = p.detectedLang := by
  have ht := translateClickResume_frame (translateClickStart p) r2
  have hf := fetchClick_untouched p r h
  exact ⟨hf.1, hf.2.1, ht.2.1, ht.2.2.1⟩

/-- Witness of C6: a non-OK reply after a stored transcript. -/
theorem session_state_frame_witness :
    (fetchClick translateScenarioPage
      (Reply.parsed false bodyWithEmptyError)).fetchedTranscript = JSVal.str "hello" ∧
    (translateClick translateScenarioPage
      (Reply.parsed true scenarioTranslateBody)).detectedLang = JSVal.str "en" :=
  have h := session_state_frame translateScenarioPage (Reply.parsed false bodyWithEmptyError)
    (Reply.parsed true scenarioTranslateBody) (Or.inr rfl)
  ⟨h.1, h.2.2.2⟩

/-- Counterexample to C7: after an OK reply whose body has no `suggested_terms` the
original-transcript region shows the new transcript while the results panel is still hidden,
so the fields are neither all set from the reply nor all as before. -/
theorem partial_update_on_throw :
    ¬ (resultsUntouched (scenarioPage "https://youtu.be/abc")
          (fetchClick (scenarioPage "https://youtu.be/abc") (Reply.parsed true bodyWithoutTerms)) ∨
       resultsSetFrom bodyWithoutTerms
          (fetchClick (scenarioPage "https://youtu.be/abc")
            (Reply.parsed true bodyWithoutTerms))) := by
  have h1 : (fetchClick (scenarioPage "https://youtu.be/abc")
      (Reply.parsed true bodyWithoutTerms)).originalTranscript = "hello" := by decide
  have h2 : (fetchClick (scenarioPage "https://youtu.be/abc")
      (Reply.parsed true bodyWithoutTerms)).results = "none" := by decide
  rintro (h | h)
  · have h3 := h.2.2.1
    rw [h1] at h3
    exact absurd h3 (by decide)
  · have h3 := h.2.2.2.2.1
    rw [h2] at h3
    exact absurd h3 (by decide)

/-- C7, amended. When an OK reply's parsed body is `null` or has a `transcript` that converts
to text and a `suggested_terms` array whose elements convert to text, and for every non-OK
reply and every rejected `fetch` or `res.json()`, the session state and the result fields
after a run of the fetch handler are either all as before the run or all set from the body
of an OK reply. -/
theorem fetch_all_or_nothing (p : Page) (r : Reply)
    (h : ∀ data, r = Reply.parsed true data →
      data.getProp "transcript" = none ∨ bodyConverts data = true) :
    resultsUntouched p (fetchClick p r) ∨
    ∃ data, r = Reply.parsed true data ∧ resultsSetFrom data (fetchClick p r) := by
  by_cases hr : r.reachesAssignment = false
  · exact Or.inl (fetchClick_untouched p r (Or.inr hr))
  by_cases hb : jsTrim p.videoUrl = ""
  · exact Or.inl (fetchClick_untouched p r (Or.inl hb))
  rcases r with _ | ok | ⟨ok, data⟩
  · exact absurd rfl hr
  · exact absurd rfl hr
  · cases ok
    · exact absurd rfl hr
    · refine Or.inr ⟨data, rfl, ?_⟩
      have hsome : (data.getProp "transcript").isSome = true := by
        cases hd : data.getProp "transcript" with
        | none => simp [Reply.reachesAssignment, hd] at hr
        | some t => rfl
      obtain ⟨t, ht⟩ := getProp_isSome "transcript" "transcript" data hsome
      obtain ⟨l, hl⟩ := getProp_isSome "transcript" "source_lang" data hsome
      have hc : bodyConverts data = true := by
        rcases h data rfl with h0 | h0
        · rw [h0] at ht; cases ht
        · exact h0
      simp only [bodyConverts, ht, Option.bind_some, Bool.and_eq_true, Option.isSome_iff_exists]
        at hc
      obtain ⟨⟨text, htext⟩, ⟨joined, hj⟩⟩ := hc
      have htext2 : t.textContentOf = some text := htext
      simp [resultsSetFrom, fetchClick, fetchClickStart_url p hb, fetchClickResume, fetchTry,
        ht, hl, htext2, hj, showLoading]

/-- Witness of C7: the successful reply of the specification's scenario sets every field. -/
theorem fetch_all_or_nothing_witness :
    bodyConverts scenarioFetchBody = true ∧
    (resultsUntouched (scenarioPage "https://youtu.be/abc")
        (fetchClick (scenarioPage "https://youtu.be/abc") (Reply.parsed true scenarioFetchBody)) ∨
      ∃ data, Reply.parsed true scenarioFetchBody = Reply.parsed true data ∧
        resultsSetFrom data
          (fetchClick (scenarioPage "https://youtu.be/abc")
            (Reply.parsed true scenarioFetchBody))) :=
  ⟨by decide,
    fetch_all_or_nothing (scenarioPage "https://youtu.be/abc")
      (Reply.parsed true scenarioFetchBody) (by
        intro data hd
        injection hd with _ hd
        subst hd
        exact Or.inr (by decide))⟩

/-- Counterexample to C8: a non-OK reply whose body carries an `error` property holding the
empty text; the fetch handler shows its fallback and not the property. -/
theorem empty_error_not_surfaced :
    bodyWithEmptyError.getProp "error" = some (JSVal.str "") ∧
    (fetchClick (scenarioPage "https://youtu.be/abc")
      (Reply.parsed false bodyWithEmptyError)).urlError = "Failed to fetch transcript" ∧
    (fetchClick (scenarioPage "https://youtu.be/abc")
      (Reply.parsed false bodyWithEmptyError)).urlError ≠ "" ∧
    (translateClick translateScenarioPage
      (Reply.parsed false bodyWithEmptyError)).alerts = ["Translation failed"] :=
  ⟨rfl, by decide, by decide, by decide⟩

/-- C8, amended. On a non-OK reply whose parsed body is not `null` and whose `error` is a text
or is absent, the message is that text when it is present and not empty, and the fallback of
the operation otherwise ("Failed to fetch transcript", "Translation failed"); on a rejected
`fetch` or `res.json()` it is "Error connecting to server".  The fetch handler, which gets a
reply only when the trimmed URL is not empty, writes the message into `url-error`; the
translate handler, on every page, passes it to `alert` and leaves `url-error` and the
translated-transcript region as they were. -/
theorem failure_messages (p : Page) (data : JSVal) (e : Option String) (ok : Bool)
    (he : data.getProp "error" = some (optionalText e)) :
    (jsTrim p.videoUrl ≠ "" →
      (fetchClick p (Reply.parsed false data)).urlError =
        errorOrFallback e "Failed to fetch transcript" ∧
      (fetchClick p Reply.rejected).urlError = "Error connecting to server" ∧
      (fetchClick p (Reply.unparsable ok)).urlError = "Error connecting to server") ∧
    ((translateClick p (Reply.parsed false data)).alerts =
        p.alerts ++ [errorOrFallback e "Translation failed"] ∧
      (translateClick p (Reply.parsed false data)).urlError = p.urlError ∧
      (translateClick p (Reply.parsed false data)).translatedTranscript =
        p.translatedTranscript) ∧
    ((translateClick p Reply.rejected).alerts = p.alerts ++ ["Error connecting to server"] ∧
      (translateClick p Reply.rejected).urlError = p.urlError ∧
      (translateClick p Reply.rejected).translatedTranscript = p.translatedTranscript) ∧
    ((translateClick p (Reply.unparsable ok)).alerts =
        p.alerts ++ ["Error connecting to server"] ∧
      (translateClick p (Reply.unparsable ok)).urlError = p.urlError ∧
      (translateClick p (Reply.unparsable ok)).translatedTranscript =
        p.translatedTranscript) := by
  refine ⟨fun hurl => ⟨?_, ?_, ?_⟩, ?_, ?_, ?_⟩
  · simp [fetchClick, fetchClickStart_url p hurl, fetchClickResume, fetchTry, he,
      textContentOf_optional, showLoading]
  · simp [fetchClick, fetchClickStart_url p hurl, fetchClickResume, fetchTry, showLoading]
  · simp [fetchClick, fetchClickStart_url p hurl, fetchClickResume, fetchTry, showLoading]
  · simp [translateClick, translateClickStart, translateClickResume, translateTry, he,
      toStr_optional, showLoading]
  · simp [translateClick, translateClickStart, translateClickResume, translateTry, showLoading]
  · simp [translateClick, translateClickStart, translateClickResume, translateTry, showLoading]

/-- Witness of C8: a failure reply whose body carries a message of the server and a rejected
request, for the fetch handler on a page with a URL and for the translate handler on a page
whose URL field is empty. -/
theorem failure_messages_witness :
    (fetchClick (scenarioPage "https://youtu.be/abc")
      (Reply.parsed false bodyWithServerError)).urlError = "No captions" ∧
    (fetchClick (scenarioPage "https://youtu.be/abc") Reply.rejected).urlError =
      "Error connecting to server" ∧
    (translateClick (scenarioPage "")
      (Reply.parsed false bodyWithServerError)).alerts = ["No captions"] ∧
    (translateClick (scenarioPage "") Reply.rejected).alerts =
      ["Error connecting to server"] :=
  have h1 := (failure_messages (scenarioPage "https://youtu.be/abc") bodyWithServerError
    (some "No captions") true rfl).1 (by decide)
  have h2 := (failure_messages (scenarioPage "") bodyWithServerError
    (some "No captions") true rfl).2
  ⟨h1.1, h1.2.1, h2.1.1, h2.2.1.1⟩

/-- Counterexample to C9: a click on the fetch button with an empty URL field while an
earlier request is pending returns through the validation abort and leaves the loading
region displayed. -/
theorem validation_abort_leaves_busy :
    busyPageWithoutUrl.loading = "block" ∧
    (fetchClickStart busyPageWithoutUrl).2 = false ∧
    (fetchClick busyPageWithoutUrl Reply.rejected).loading = "block" ∧
    (fetchClick busyPageWithoutUrl Reply.rejected).loading ≠ "none" :=
  ⟨by decide, by decide, by decide, by decide⟩

/-- C9, amended. A run of the translate handler, and a run of the fetch handler with a
non-blank URL, displays the loading region by the time the request is handed to `fetch` and
hides it when the handler returns, whatever the reply; the validation abort of the fetch
handler leaves the loading region as it was before the run. -/
theorem busy_indicator (p : Page) (r : Reply) :
    ((translateClickStart p).loading = "block" ∧
      (translateClickStart p).requests = p.requests ++
        [translateRequest p.fetchedTranscript p.detectedLang p.targetLanguage
          (parsePreserveTerms p.preserveTerms)] ∧
      (translateClick p r).loading = "none") ∧
    (if jsTrim p.videoUrl = "" then
      (fetchClickStart p).2 = false ∧ (fetchClick p r).loading = p.loading
    else
      (fetchClickStart p).2 = true ∧ (fetchClickStart p).1.loading = "block" ∧
      (fetchClickStart p).1.requests = p.requests ++ [fetchRequest (jsTrim p.videoUrl)] ∧
      (fetchClick p r).loading = "none") := by
  refine ⟨⟨rfl, rfl, (translateClickResume_frame _ r).2.2.2.2⟩, ?_⟩
  by_cases hb : jsTrim p.videoUrl = ""
  · simp [hb, fetchClick, fetchClickStart_blank p hb]
  · simp [hb, fetchClick, fetchClickStart_url p hb, fetchClickResume_loading]

/-- C10. When every suggested term is non-empty, free of commas and free of leading and
trailing whitespace, the text the fetch handler writes into the preserve-terms field parses
back to the same terms in the same order, so a translate click on the unedited field sends
them as `preserve_terms`. -/
theorem suggested_terms_round_trip (p : Page) (data : JSVal) (t l : String) (ts : List String)
    (r2 : Reply)
    (hurl : jsTrim p.videoUrl ≠ "")
    (ht : data.getProp "transcript" = some (JSVal.str t))
    (hl : data.getProp "source_lang" = some (JSVal.str l))
    (hs : data.getProp "suggested_terms" = some (JSVal.arr (ts.map JSVal.str)))
    (hclean : ∀ x ∈ ts, isCleanTerm x = true) :
    (fetchClick p (Reply.parsed true data)).preserveTerms = jsJoinStrings ", " ts ∧
    parsePreserveTerms (jsJoinStrings ", " ts) = ts ∧
    (translateClick (fetchClick p (Reply.parsed true data)) r2).requests =
      p.requests ++ [fetchRequest (jsTrim p.videoUrl)] ++
        [translateRequest (JSVal.str t) (JSVal.str l) p.targetLanguage ts] := by
  refine ⟨?_, parsePreserveTerms_joined ts hclean, ?_⟩
  · rw [fetchClick_success p data t l ts hurl ht hl hs]
  · rw [translateClick_requests, fetchClick_success p data t l ts hurl ht hl hs]
    simp only [parsePreserveTerms_joined ts hclean]

/-- Witness of C10: two suggested terms, one of them with an inner blank. -/
theorem suggested_terms_round_trip_witness :
    ["Ada Lovelace", "hello"].all isCleanTerm = true ∧
    jsJoinStrings ", " ["Ada Lovelace", "hello"] = "Ada Lovelace, hello" ∧
    parsePreserveTerms (jsJoinStrings ", " ["Ada Lovelace", "hello"]) =
      ["Ada Lovelace", "hello"] :=
  ⟨by decide, by decide,
    (suggested_terms_round_trip (scenarioPage "https://youtu.be/abc")
      (JSVal.obj [("transcript", JSVal.str "hello"), ("source_lang", JSVal.str "en"),
        ("suggested_terms", JSVal.arr [JSVal.str "Ada Lovelace", JSVal.str "hello"])])
      "hello" "en" ["Ada Lovelace", "hello"] Reply.rejected
      (by decide) rfl rfl rfl (by decide)).2.1⟩

end AppJs
